import Mathlib

/-!
Shallow embedding of the wm-cli project generator (waelmanai/wm-cli).

The generator collects a configuration record from interactive prompts and
then materializes a Next.js project skeleton: it validates the destination,
writes package.json and a fixed-plus-flag-gated set of directories and
files, shells out to the package manager and to the shadcn CLI, and prints
a success report.  The embedding below models:

  * the configuration record (src/types/index.ts),
  * createPackageJson (src/scaffolders/package.ts) with full content,
  * the file/directory sets written by each scaffolder
    (src/scaffolders/structure.ts, config, core, components, lib, actions,
    stores, hooks, app, metadata, docker, database),
  * setupProjectDirectory, installPackages and displaySuccessMessage
    (src/utils/project-setup.ts),
  * installShadcnComponents (src/scaffolders/shadcn: the Set-based
    component resolution and the per-component add loop),
  * scaffoldProject (src/scaffolders/index.ts) as a pure function from the
    configuration, a file-existence oracle and a subprocess-outcome oracle
    to a run outcome (exit code, created entries, package.json content,
    subprocess step trace, report lines),
  * the monolithic CLI entry createProject of the legacy single-file
    variant (its prompt-cancellation check and config construction).

File bodies other than package.json carry no logic that the claims touch,
so entries record the written paths; package.json content is modelled in
full because flag interaction inside it is under test.
-/

namespace WmCli

/-- Package manager choice, from the ProjectConfig type (src/types/index.ts). -/
inductive PackageManager
  | npm
  | yarn
  | pnpm
deriving DecidableEq, Repr

/-- React version choice, from the ProjectConfig type (src/types/index.ts). -/
inductive ReactVersion
  | v18
  | v19
deriving DecidableEq, Repr

/-- Feature flags of the configuration record (src/types/index.ts). -/
structure Features where
  database : Bool
  docker : Bool
  husky : Bool
  linting : Bool
  nodemailer : Bool
  betterAuth : Bool
deriving DecidableEq, Repr

/-- Component flags of the configuration record (src/types/index.ts). -/
structure Components where
  dataTable : Bool
  customInputs : Bool
  fileUpload : Bool
  dateTimeInput : Bool
  dateRangeInput : Bool
  numberInput : Bool
  priceInput : Bool
  phoneInput : Bool
  radioGroupInput : Bool
deriving DecidableEq, Repr

/-- The configuration record (src/types/index.ts, interface ProjectConfig). -/
structure ProjectConfig where
  projectName : String
  packageManager : PackageManager
  reactVersion : ReactVersion
  initInCurrentDir : Bool
  features : Features
  components : Components
deriving DecidableEq, Repr

/-- String rendering of the package manager, as prompts store it. -/
def pmString : PackageManager → String
  | PackageManager.npm => "npm"
  | PackageManager.yarn => "yarn"
  | PackageManager.pnpm => "pnpm"

/-! Section: package.json content (src/scaffolders/package.ts, createPackageJson) -/

/-- The package.json object built by createPackageJson: key/value lists keep
the insertion order of the source; lintStaged and prismaSeed model the
conditional top-level lint-staged and prisma config blocks. -/
structure PackageJson where
  name : String
  version : String
  isPrivate : Bool
  scripts : List (String × String)
  dependencies : List (String × String)
  devDependencies : List (String × String)
  lintStaged : Option (List (String × List String))
  prismaSeed : Option String
deriving DecidableEq, Repr

/-- The database setup script chosen per package manager
(src/scaffolders/package.ts lines 22-26). -/
def setupScript : PackageManager → String
  | PackageManager.npm =>
      "npm install && npx prisma db push --force-reset && npx prisma generate && npx prisma db seed && npm run dev"
  | PackageManager.yarn =>
      "yarn install && yarn prisma db push --force-reset && yarn prisma generate && yarn prisma db seed && yarn dev"
  | PackageManager.pnpm =>
      "pnpm install && pnpm prisma db push --force-reset && pnpm prisma generate && pnpm prisma db seed && pnpm dev"

/-- Scripts added by the linting block of createPackageJson. -/
def lintingScripts : List (String × String) :=
  [("lint", "next lint"),
   ("lint:fix", "eslint . --fix"),
   ("format", "prettier --write ."),
   ("format:check", "prettier --check ."),
   ("type-check", "tsc --noEmit")]

/-- Scripts added by the database block of createPackageJson. -/
def databaseScripts (pm : PackageManager) : List (String × String) :=
  [("setup", setupScript pm),
   ("db:push", "prisma db push"),
   ("db:seed", "prisma db seed"),
   ("db:generate", "prisma generate"),
   ("db:studio", "prisma studio"),
   ("dev:studio", "concurrently --kill-others-on-fail --prefix-colors \"cyan.bold,magenta.bold\" --names \"NEXT,PRISMA\" \"npm run dev\" \"npm run db:studio\"")]

/-- Base dependencies always included by createPackageJson. -/
def baseDependencies : List (String × String) :=
  [("next", "latest"),
   ("react", "^18.3.1"),
   ("react-dom", "^18.3.1"),
   ("typescript", "latest"),
   ("@types/node", "latest"),
   ("@types/react", "^18.3.17"),
   ("@types/react-dom", "^18.3.5"),
   ("tailwindcss", "latest"),
   ("@tailwindcss/postcss", "latest"),
   ("autoprefixer", "latest"),
   ("postcss", "latest"),
   ("class-variance-authority", "latest"),
   ("clsx", "latest"),
   ("tailwind-merge", "latest"),
   ("tailwindcss-animate", "latest"),
   ("lucide-react", "latest"),
   ("zustand", "latest"),
   ("react-hook-form", "latest"),
   ("@hookform/resolvers", "latest"),
   ("zod", "latest"),
   ("date-fns", "latest")]

/-- Dev dependencies added by the linting block of createPackageJson. -/
def lintingDevDependencies : List (String × String) :=
  [("eslint", "latest"),
   ("eslint-config-next", "latest"),
   ("@typescript-eslint/eslint-plugin", "latest"),
   ("@typescript-eslint/parser", "latest"),
   ("eslint-plugin-react", "latest"),
   ("eslint-plugin-react-hooks", "latest"),
   ("prettier", "latest"),
   ("prettier-plugin-tailwindcss", "latest")]

/-- Dev dependencies added by the husky block of createPackageJson. -/
def huskyDevDependencies : List (String × String) :=
  [("husky", "latest"), ("lint-staged", "latest")]

/-- The lint-staged configuration block added when husky and linting are
both selected (src/scaffolders/package.ts lines 124-129). -/
def lintStagedConfig : List (String × List String) :=
  [("*.\x7bjs,jsx,ts,tsx\x7d", ["eslint --fix", "prettier --write"]),
   ("*.\x7bjson,css,md\x7d", ["prettier --write"])]

/-- createPackageJson (src/scaffolders/package.ts): builds the package.json
object from the project name, package manager, features and components,
mirroring the source mutation order as list appends. -/
def createPackageJson (projectName : String) (pm : PackageManager)
    (features : Features) (components : Components) : PackageJson :=
  let scripts :=
    [("dev", "next dev"), ("build", "next build"), ("start", "next start")]
      ++ (if features.linting then lintingScripts else [])
      ++ (if features.database then databaseScripts pm else [])
      ++ (if features.husky then [("prepare", "husky")] else [])
  let dependencies :=
    baseDependencies
      ++ (if features.betterAuth then [("better-auth", "latest")] else [])
      ++ (if features.database then [("@prisma/client", "latest")] else [])
      ++ (if features.nodemailer then
            [("nodemailer", "latest"), ("@types/nodemailer", "latest")] else [])
      ++ (if components.priceInput then [("react-number-format", "latest")] else [])
      ++ (if components.phoneInput then [("react-phone-number-input", "latest")] else [])
  let devDependencies :=
    (if features.database then
        [("prisma", "latest"), ("tsx", "latest"), ("concurrently", "latest")] else [])
      ++ (if features.linting then lintingDevDependencies else [])
      ++ (if features.husky then huskyDevDependencies else [])
  { name := projectName
    version := "0.1.0"
    isPrivate := true
    scripts := scripts
    dependencies := dependencies
    devDependencies := devDependencies
    lintStaged := if features.husky && features.linting then some lintStagedConfig else none
    prismaSeed := if features.database then some "tsx prisma/seed.ts" else none }

/-! Section: File-system entries written by the materializer

The writes of each scaffolder are recorded as directory/file entries at the path
the source passes to fs.ensureDirSync / fs.writeFileSync (relative to the
project root, since setupProjectDirectory chdirs there first). -/

/-- A file-system entry produced by the materializer. -/
inductive FsEntry
  | dir (path : String)
  | file (path : String)
deriving DecidableEq, Repr

/-- True on file entries; used to restrict an entry list to files. -/
def FsEntry.isFile : FsEntry → Bool
  | FsEntry.dir _ => false
  | FsEntry.file _ => true

/-- Base folders always created by createFolderStructure
(src/scaffolders/structure.ts lines 6-22). -/
def baseFolders : List String :=
  ["actions", "app", "components/ui", "constants", "contexts", "hooks",
   "lib", "lib/security", "providers", "public/images", "public/icons",
   "schemas", "stores", "types", "utils"]

/-- Data-table folders pushed when dataTable is selected
(src/scaffolders/structure.ts lines 31-38). -/
def dataTableFolders : List String :=
  ["components/shared/data-table/components",
   "components/shared/data-table/hooks",
   "components/shared/data-table/utils",
   "components/shared/data-table/types"]

/-- createFolderStructure (src/scaffolders/structure.ts): base folders plus
folders gated on component and feature flags, ensured in source order. -/
def createFolderStructureEntries (features : Features) (components : Components) :
    List FsEntry :=
  (baseFolders.map FsEntry.dir)
    ++ (if components.customInputs || components.fileUpload || components.dateTimeInput ||
          components.dateRangeInput || components.numberInput || components.priceInput ||
          components.phoneInput || components.radioGroupInput then
          [FsEntry.dir "components/shared/inputs"] else [])
    ++ (if components.dataTable then dataTableFolders.map FsEntry.dir else [])
    ++ (if features.database then [FsEntry.dir "prisma"] else [])

/-- createConfigFiles: the eight unconditional configuration files. -/
def createConfigFilesEntries : List FsEntry :=
  [FsEntry.file "next.config.js", FsEntry.file "tsconfig.json",
   FsEntry.file "tailwind.config.js", FsEntry.file "postcss.config.js",
   FsEntry.file ".prettierrc", FsEntry.file ".eslintrc.json",
   FsEntry.file ".env.example", FsEntry.file ".gitignore"]

/-- createCoreFiles: global stylesheet and middleware, written
unconditionally (the features argument is not used for file selection;
modelled from the createCoreFiles variant in the monolithic CLI source,
which the modular entry point imports as ./core). -/
def createCoreFilesEntries : List FsEntry :=
  [FsEntry.file "app/globals.css", FsEntry.file "middleware.ts"]

/-- createCustomComponents: the four custom non-shadcn component files. -/
def createCustomComponentsEntries : List FsEntry :=
  [FsEntry.file "components/shared/inputs/TextInput.tsx",
   FsEntry.file "components/shared/inputs/CheckboxInput.tsx",
   FsEntry.file "components/shared/Container.tsx",
   FsEntry.file "components/shared/Spinner.tsx"]

/-- Input files written by createSharedInputs when customInputs is set. -/
def sharedCustomInputFiles : List FsEntry :=
  [FsEntry.file "components/shared/inputs/SelectInput.tsx",
   FsEntry.file "components/shared/inputs/PasswordInput.tsx",
   FsEntry.file "components/shared/inputs/TextareaInput.tsx"]

/-- createSharedInputs: input component files gated per flag. -/
def createSharedInputsEntries (components : Components) : List FsEntry :=
  (if components.customInputs then sharedCustomInputFiles else [])
    ++ (if components.fileUpload then
          [FsEntry.file "components/shared/inputs/FileUpload.tsx"] else [])
    ++ (if components.dateTimeInput then
          [FsEntry.file "components/shared/inputs/DateTimeInput.tsx"] else [])
    ++ (if components.radioGroupInput then
          [FsEntry.file "components/shared/inputs/RadioGroupInput.tsx"] else [])

/-- createDataTableUtilities: sorting, filtering and pagination helpers. -/
def createDataTableUtilitiesEntries : List FsEntry :=
  [FsEntry.file "components/shared/data-table/utils/sorting.ts",
   FsEntry.file "components/shared/data-table/utils/filtering.ts",
   FsEntry.file "components/shared/data-table/utils/pagination.ts"]

/-- createDataTableComponents: the five data-table state components. -/
def createDataTableComponentsEntries : List FsEntry :=
  [FsEntry.file "components/shared/data-table/components/TableEmptyState.tsx",
   FsEntry.file "components/shared/data-table/components/TableErrorState.tsx",
   FsEntry.file "components/shared/data-table/components/TableLoadingState.tsx",
   FsEntry.file "components/shared/data-table/components/TablePagination.tsx",
   FsEntry.file "components/shared/data-table/components/TableFilters.tsx"]

/-- createDataTableHooks: the table-state hook. -/
def createDataTableHooksEntries : List FsEntry :=
  [FsEntry.file "components/shared/data-table/hooks/useTableState.ts"]

/-- createSharedDataTable: the table core files, then the utilities,
components and hooks it creates in turn. -/
def createSharedDataTableEntries : List FsEntry :=
  [FsEntry.file "components/shared/data-table/types/index.ts",
   FsEntry.file "components/shared/data-table/index.tsx",
   FsEntry.file "components/shared/data-table/DataTable.tsx"]
    ++ createDataTableUtilitiesEntries
    ++ createDataTableComponentsEntries
    ++ createDataTableHooksEntries

/-- createSharedComponents: shared inputs when any input flag among
customInputs, fileUpload, dateTimeInput, radioGroupInput is set, then the
data table when dataTable is set. -/
def createSharedComponentsEntries (components : Components) : List FsEntry :=
  (if components.customInputs || components.fileUpload || components.dateTimeInput ||
      components.radioGroupInput then createSharedInputsEntries components else [])
    ++ (if components.dataTable then createSharedDataTableEntries else [])

/-- createLibFiles: utils, the safe-action helper, the prisma client
helper, email config only when nodemailer is set, then auth files. -/
def createLibFilesEntries (features : Features) : List FsEntry :=
  [FsEntry.file "lib/utils.ts", FsEntry.file "lib/create-safe-action.ts",
   FsEntry.file "lib/db.ts"]
    ++ (if features.nodemailer then [FsEntry.file "lib/email.ts"] else [])
    ++ [FsEntry.file "lib/auth.ts", FsEntry.file "lib/auth-client.ts"]

/-- createActionsExample: the getUsers example action module. -/
def createActionsExampleEntries : List FsEntry :=
  [FsEntry.dir "actions/getUsers",
   FsEntry.file "actions/getUsers/schemas.ts",
   FsEntry.file "actions/getUsers/types.ts",
   FsEntry.file "actions/getUsers/index.ts"]

/-- createStores: form store and reset helper. -/
def createStoresEntries : List FsEntry :=
  [FsEntry.file "stores/formStore.ts", FsEntry.file "stores/resetStores.ts"]

/-- createHooks: the two unconditional hook files. -/
def createHooksEntries : List FsEntry :=
  [FsEntry.file "hooks/use-actions.ts", FsEntry.file "hooks/use-custom-navigate.ts"]

/-- createAppFiles (src/scaffolders/app.ts): seven app files, written for
every configuration (only page.tsx content varies with features). -/
def createAppFilesEntries : List FsEntry :=
  [FsEntry.file "app/layout.tsx", FsEntry.file "app/page.tsx",
   FsEntry.file "app/error.tsx", FsEntry.file "app/loading.tsx",
   FsEntry.file "app/not-found.tsx", FsEntry.file "app/robots.ts",
   FsEntry.file "app/sitemap.ts"]

/-- createConstants: navigation constants and barrel file. -/
def createConstantsEntries : List FsEntry :=
  [FsEntry.file "constants/nav.constants.ts", FsEntry.file "constants/index.ts"]

/-- createTypes: user types and barrel file. -/
def createTypesEntries : List FsEntry :=
  [FsEntry.file "types/users.types.ts", FsEntry.file "types/index.ts"]

/-- createSchemas: user schemas and barrel file. -/
def createSchemasEntries : List FsEntry :=
  [FsEntry.file "schemas/users.schemas.ts", FsEntry.file "schemas/index.ts"]

/-- createDockerFiles: Dockerfile, compose file and dockerignore. -/
def createDockerFilesEntries : List FsEntry :=
  [FsEntry.file "Dockerfile", FsEntry.file "docker-compose.yml",
   FsEntry.file ".dockerignore"]

/-- createPrismaFiles: prisma schema and seed script. -/
def createPrismaFilesEntries : List FsEntry :=
  [FsEntry.file "prisma/schema.prisma", FsEntry.file "prisma/seed.ts"]

/-- The full entry list produced by scaffoldProject before the first
subprocess step (src/scaffolders/index.ts lines 34-80): package.json,
folder structure, configuration files, core files, optional custom
components, shared components, lib files, action example, stores, hooks,
app files, constants, types, schemas, optional docker files, optional
prisma files, in call order. -/
def scaffoldEntries (features : Features) (components : Components) : List FsEntry :=
  [FsEntry.file "package.json"]
    ++ createFolderStructureEntries features components
    ++ createConfigFilesEntries
    ++ createCoreFilesEntries
    ++ (if components.customInputs then createCustomComponentsEntries else [])
    ++ createSharedComponentsEntries components
    ++ createLibFilesEntries features
    ++ createActionsExampleEntries
    ++ createStoresEntries
    ++ createHooksEntries
    ++ createAppFilesEntries
    ++ createConstantsEntries
    ++ createTypesEntries
    ++ createSchemasEntries
    ++ (if features.docker then createDockerFilesEntries else [])
    ++ (if features.database then createPrismaFilesEntries else [])

/-! Section: Manifests: the fixed always-created entry set and the per-flag sets -/

/-- The shared inputs directory entry, created when any input component
flag is set. -/
def inputsDirEntry : FsEntry := FsEntry.dir "components/shared/inputs"

/-- The fixed manifest of entries created for every configuration. -/
def alwaysManifest : List FsEntry :=
  [FsEntry.file "package.json"]
    ++ baseFolders.map FsEntry.dir
    ++ createConfigFilesEntries
    ++ createCoreFilesEntries
    ++ [FsEntry.file "lib/utils.ts", FsEntry.file "lib/create-safe-action.ts",
        FsEntry.file "lib/db.ts"]
    ++ [FsEntry.file "lib/auth.ts", FsEntry.file "lib/auth-client.ts"]
    ++ createActionsExampleEntries
    ++ createStoresEntries
    ++ createHooksEntries
    ++ createAppFilesEntries
    ++ createConstantsEntries
    ++ createTypesEntries
    ++ createSchemasEntries

/-- Entries contributed by the database feature flag. -/
def databaseManifest : List FsEntry :=
  [FsEntry.dir "prisma"] ++ createPrismaFilesEntries

/-- Entries contributed by the docker feature flag. -/
def dockerManifest : List FsEntry := createDockerFilesEntries

/-- Entries contributed by the nodemailer feature flag. -/
def nodemailerManifest : List FsEntry := [FsEntry.file "lib/email.ts"]

/-- Entries contributed by the husky feature flag before any subprocess
step: none (husky only changes package.json content and later runs a
subprocess-backed setup step). -/
def huskyManifest : List FsEntry := []

/-- Entries contributed by the linting feature flag: none (linting only
changes package.json content). -/
def lintingManifest : List FsEntry := []

/-- Entries contributed by the betterAuth feature flag: none (the auth lib
files are written unconditionally). -/
def betterAuthManifest : List FsEntry := []

/-- Entries contributed by the dataTable component flag. -/
def dataTableManifest : List FsEntry :=
  dataTableFolders.map FsEntry.dir ++ createSharedDataTableEntries

/-- Entries contributed by the customInputs component flag. -/
def customInputsManifest : List FsEntry :=
  [inputsDirEntry] ++ createCustomComponentsEntries ++ sharedCustomInputFiles

/-- Entries contributed by the fileUpload component flag. -/
def fileUploadManifest : List FsEntry :=
  [inputsDirEntry] ++ [FsEntry.file "components/shared/inputs/FileUpload.tsx"]

/-- Entries contributed by the dateTimeInput component flag. -/
def dateTimeInputManifest : List FsEntry :=
  [inputsDirEntry] ++ [FsEntry.file "components/shared/inputs/DateTimeInput.tsx"]

/-- Entries contributed by the dateRangeInput component flag: only the
shared inputs directory (no dedicated file is written for it by the
modular scaffolder). -/
def dateRangeInputManifest : List FsEntry := [inputsDirEntry]

/-- Entries contributed by the numberInput component flag. -/
def numberInputManifest : List FsEntry := [inputsDirEntry]

/-- Entries contributed by the priceInput component flag. -/
def priceInputManifest : List FsEntry := [inputsDirEntry]

/-- Entries contributed by the phoneInput component flag. -/
def phoneInputManifest : List FsEntry := [inputsDirEntry]

/-- Entries contributed by the radioGroupInput component flag. -/
def radioGroupInputManifest : List FsEntry :=
  [inputsDirEntry] ++ [FsEntry.file "components/shared/inputs/RadioGroupInput.tsx"]

/-- Membership in a flag-conditional entry list. -/
theorem mem_ite_nil {α : Type} (p : Prop) [Decidable p] (l : List α) (x : α) :
    x ∈ (if p then l else []) ↔ p ∧ x ∈ l := by
  by_cases h : p <;> simp [h]

instance : Std.Associative (α := Prop) Or := ⟨fun _ _ _ => propext or_assoc⟩

instance : Std.Commutative (α := Prop) Or := ⟨fun _ _ => propext or_comm⟩

/-- Membership characterisation of createSharedComponents: the outer gate
(any of customInputs, fileUpload, dateTimeInput, radioGroupInput) is
absorbed by the inner per-flag conditions of createSharedInputs. -/
theorem mem_createSharedComponentsEntries (c : Components) (e : FsEntry) :
    e ∈ createSharedComponentsEntries c ↔
      (c.customInputs = true ∧ e ∈ sharedCustomInputFiles)
        ∨ (c.fileUpload = true ∧ e ∈ [FsEntry.file "components/shared/inputs/FileUpload.tsx"])
        ∨ (c.dateTimeInput = true ∧ e ∈ [FsEntry.file "components/shared/inputs/DateTimeInput.tsx"])
        ∨ (c.radioGroupInput = true ∧ e ∈ [FsEntry.file "components/shared/inputs/RadioGroupInput.tsx"])
        ∨ (c.dataTable = true ∧ e ∈ createSharedDataTableEntries) := by
  simp only [createSharedComponentsEntries, createSharedInputsEntries, List.mem_append,
    mem_ite_nil, Bool.or_eq_true]
  tauto

set_option maxHeartbeats 3200000 in
/-- C1: for every combination of feature and component flags, the set of
files and directories produced by the materializer (scaffoldProject and the
create* scaffolders it calls, before any subprocess step) equals exactly
the union of the fixed always-created manifest and the per-flag manifests
of the flags that are true; membership is characterised pointwise, so the
result is order-independent. -/
theorem scaffold_entries_eq_manifest_union (f : Features) (c : Components) (e : FsEntry) :
    e ∈ scaffoldEntries f c ↔
      e ∈ alwaysManifest
        ∨ (f.database = true ∧ e ∈ databaseManifest)
        ∨ (f.docker = true ∧ e ∈ dockerManifest)
        ∨ (f.husky = true ∧ e ∈ huskyManifest)
        ∨ (f.linting = true ∧ e ∈ lintingManifest)
        ∨ (f.nodemailer = true ∧ e ∈ nodemailerManifest)
        ∨ (f.betterAuth = true ∧ e ∈ betterAuthManifest)
        ∨ (c.dataTable = true ∧ e ∈ dataTableManifest)
        ∨ (c.customInputs = true ∧ e ∈ customInputsManifest)
        ∨ (c.fileUpload = true ∧ e ∈ fileUploadManifest)
        ∨ (c.dateTimeInput = true ∧ e ∈ dateTimeInputManifest)
        ∨ (c.dateRangeInput = true ∧ e ∈ dateRangeInputManifest)
        ∨ (c.numberInput = true ∧ e ∈ numberInputManifest)
        ∨ (c.priceInput = true ∧ e ∈ priceInputManifest)
        ∨ (c.phoneInput = true ∧ e ∈ phoneInputManifest)
        ∨ (c.radioGroupInput = true ∧ e ∈ radioGroupInputManifest) := by
  simp only [scaffoldEntries, createFolderStructureEntries, createLibFilesEntries,
    alwaysManifest, databaseManifest, dockerManifest, nodemailerManifest, huskyManifest,
    lintingManifest, betterAuthManifest, dataTableManifest, customInputsManifest,
    fileUploadManifest, dateTimeInputManifest, dateRangeInputManifest, numberInputManifest,
    priceInputManifest, phoneInputManifest, radioGroupInputManifest, inputsDirEntry,
    mem_createSharedComponentsEntries, List.mem_append, mem_ite_nil,
    Bool.or_eq_true, List.not_mem_nil, and_false, or_false, false_or]
  simp only [or_and_right, and_or_left, or_assoc]
  exact Iff.of_eq (by ac_rfl)

/-! Section: Destination validation and the full run
(src/utils/project-setup.ts, src/scaffolders/index.ts) -/

/-- Outcome of setupProjectDirectory: either the process exited with a
code, or validation passed (recording the project directory it created
and changed into, if any). -/
inductive SetupResult
  | exited (code : Nat)
  | ok (createdDir : Option String)
deriving DecidableEq, Repr

/-- The marker files checked in current-directory mode
(src/utils/project-setup.ts line 16). -/
def conflictingFiles : List String :=
  ["package.json", "next.config.js", "tsconfig.json"]

/-- setupProjectDirectory (src/utils/project-setup.ts lines 9-38): in
current-directory mode, exit 1 if any marker file exists; otherwise, exit 1
if a directory named after the project already exists, else create it and
change into it.  The present oracle stands for fs.existsSync. -/
def setupProjectDirectory (config : ProjectConfig) (present : String → Bool) :
    SetupResult :=
  if config.initInCurrentDir then
    let conflicts := conflictingFiles.filter present
    if conflicts.length > 0 then SetupResult.exited 1
    else SetupResult.ok none
  else
    if present config.projectName then SetupResult.exited 1
    else SetupResult.ok (some config.projectName)

/-- Outcomes of the subprocess invocations, supplied as an oracle: the
dependency install, the shadcn init call, and each shadcn add call. -/
structure ToolEnv where
  installOk : Bool
  shadcnInitOk : Bool
  shadcnAddOk : String → Bool

/-- One observable step of the post-materialization phase. -/
inductive Step
  | installRun (ok : Bool)
  | installWarn (message : String)
  | huskySetup
  | shadcnInit (ok : Bool)
  | shadcnAdd (component : String) (ok : Bool)
  | shadcnWarn
  | report
deriving DecidableEq, Repr

/-- The warning printed when the dependency install subprocess fails
(src/utils/project-setup.ts line 53). -/
def installWarnMessage (pm : PackageManager) : String :=
  "❌ Failed to install dependencies. Please run " ++ pmString pm ++ " install manually."

/-- installPackages (src/utils/project-setup.ts lines 43-56): one install
subprocess; on failure, a warning with manual-recovery instructions is
printed and the error is rethrown, which scaffoldProject catches and
ignores, so the trace continues either way. -/
def installPackagesSteps (pm : PackageManager) (env : ToolEnv) : List Step :=
  if env.installOk then [Step.installRun true]
  else [Step.installRun false, Step.installWarn (installWarnMessage pm)]

/-- JS Set insertion: append only when absent, preserving insertion order. -/
def addUnique (l : List String) (s : String) : List String :=
  if s ∈ l then l else l ++ [s]

/-- Insert each element of xs into the accumulated set. -/
def addAll (l : List String) (xs : List String) : List String :=
  xs.foldl addUnique l

/-- One conditional block of component additions. -/
def addIf (b : Bool) (xs : List String) (l : List String) : List String :=
  if b then addAll l xs else l

/-- The resolved shadcn component set of installShadcnComponents
(src/scaffolders/shadcn, Set construction then Array.from): core components
first, then per-flag additions in source order, deduplicated. -/
def resolvedShadcnComponents (c : Components) : List String :=
  addIf c.radioGroupInput ["radio-group"]
    (addIf c.phoneInput ["command", "popover", "scroll-area"]
      (addIf c.dateRangeInput ["popover", "calendar"]
        (addIf c.dateTimeInput ["popover", "calendar"]
          (addIf c.fileUpload ["tooltip"]
            (addIf c.dataTable ["table", "checkbox"]
              (addIf c.customInputs ["select", "textarea"]
                (addAll [] ["form", "input", "label", "button"])))))))

/-- installShadcnComponents (src/scaffolders/shadcn): one init subprocess;
if it fails the outer catch logs a warning and returns; otherwise one add
subprocess per resolved component (none when the resolved array is empty),
each failure caught inside the loop. -/
def installShadcnComponentsSteps (c : Components) (env : ToolEnv) : List Step :=
  if env.shadcnInitOk then
    let componentsArray := resolvedShadcnComponents c
    Step.shadcnInit true ::
      (if componentsArray.length = 0 then []
       else componentsArray.map fun comp => Step.shadcnAdd comp (env.shadcnAddOk comp))
  else [Step.shadcnInit false, Step.shadcnWarn]

/-- displaySuccessMessage (src/utils/project-setup.ts lines 61-84): the
console lines printed, in order. -/
def displaySuccessMessage (config : ProjectConfig) : List String :=
  ["\n🎉 Project " ++ (config.projectName ++ " created successfully!\n"),
   "📋 Next steps:"]
    ++ (if config.initInCurrentDir = false then ["  cd " ++ config.projectName] else [])
    ++ ["  cp .env.example .env.local",
        "  # Configure your environment variables"]
    ++ (if config.features.database then
          ["  " ++ pmString config.packageManager
            ++ " run setup  # This will setup database and run dev server"]
        else ["  " ++ pmString config.packageManager ++ " run dev"])
    ++ ["\n🔧 Don\x27t forget to:",
        "  • Configure your database connection",
        "  • Set up your authentication providers",
        "  • Configure SMTP settings for email"]

/-- Everything observable about one generator run: the process exit code,
the project directory created by setup (new-directory mode only), the
file-system entries written, the package.json content, the subprocess step
trace, and the report lines. -/
structure RunOutcome where
  exitCode : Nat
  rootDir : Option String
  entries : List FsEntry
  pkg : Option PackageJson
  steps : List Step
  report : List String
deriving DecidableEq, Repr

/-- Outcome of a run that called process.exit before writing anything. -/
def abortedOutcome (code : Nat) : RunOutcome :=
  { exitCode := code, rootDir := none, entries := [], pkg := none,
    steps := [], report := [] }

/-- scaffoldProject (src/scaffolders/index.ts lines 28-100): destination
validation first (process.exit aborts the run with nothing written), then
the materializer entries, then install (failure caught), conditional husky
setup, shadcn components, and the success report; the process then ends
with exit status zero. -/
def scaffoldProjectRun (config : ProjectConfig) (present : String → Bool)
    (env : ToolEnv) : RunOutcome :=
  match setupProjectDirectory config present with
  | SetupResult.exited code => abortedOutcome code
  | SetupResult.ok created =>
      { exitCode := 0
        rootDir := created
        entries := scaffoldEntries config.features config.components
        pkg := some (createPackageJson config.projectName config.packageManager
                      config.features config.components)
        steps := installPackagesSteps config.packageManager env
                  ++ (if config.features.husky then [Step.huskySetup] else [])
                  ++ installShadcnComponentsSteps config.components env
                  ++ [Step.report]
        report := displaySuccessMessage config }

/-! Section: Destination validation claims -/

/-- C2: destination validation runs before any file is created and its
failure is atomic.  In current-directory mode, if any of the marker files
package.json, next.config.js, tsconfig.json exists, the run exits with
code 1 leaving the directory unchanged (no entry written, no directory
created, no subprocess run); in new-directory mode, if a directory with
the chosen project name already exists, the run exits with code 1 before
any file is written. -/
theorem setup_validation_aborts_before_any_write (config : ProjectConfig)
    (present : String → Bool) (env : ToolEnv) :
    (config.initInCurrentDir = true →
      (present "package.json" = true ∨ present "next.config.js" = true ∨
        present "tsconfig.json" = true) →
      scaffoldProjectRun config present env = abortedOutcome 1)
    ∧ (config.initInCurrentDir = false → present config.projectName = true →
      scaffoldProjectRun config present env = abortedOutcome 1) := by
  constructor
  · intro hmode hconf
    cases h1 : present "package.json" <;> cases h2 : present "next.config.js" <;>
      cases h3 : present "tsconfig.json" <;>
      simp_all [scaffoldProjectRun, setupProjectDirectory, conflictingFiles]
  · intro hmode hexists
    simp [scaffoldProjectRun, setupProjectDirectory, hmode, hexists]

/-- Witness for C2: a concrete current-directory run over a directory that
already holds a package.json aborts with exit code 1 and writes nothing. -/
theorem setup_validation_aborts_witness :
    scaffoldProjectRun
        { projectName := "my-app", packageManager := PackageManager.npm,
          reactVersion := ReactVersion.v18, initInCurrentDir := true,
          features := ⟨false, false, false, false, false, false⟩,
          components := ⟨false, false, false, false, false, false, false, false, false⟩ }
        (fun s => s == "package.json") ⟨true, true, fun _ => true⟩
      = abortedOutcome 1 :=
  (setup_validation_aborts_before_any_write _ _ _).1 rfl (Or.inl (by decide))

/-! Section: Install-failure tolerance -/

/-- C3: when the dependency-install subprocess fails, scaffoldProject
catches the failure; the trace still contains the warning with
manual-recovery instructions, the husky setup step whenever its flag is
set, the shadcn init step, and the final report, and the run still ends
with exit status zero with the success message printed. -/
theorem install_failure_is_non_fatal (config : ProjectConfig)
    (present : String → Bool) (env : ToolEnv) (d : Option String)
    (hsetup : setupProjectDirectory config present = SetupResult.ok d)
    (hfail : env.installOk = false) :
    (scaffoldProjectRun config present env).exitCode = 0
    ∧ Step.installWarn (installWarnMessage config.packageManager)
        ∈ (scaffoldProjectRun config present env).steps
    ∧ (config.features.husky = true →
        Step.huskySetup ∈ (scaffoldProjectRun config present env).steps)
    ∧ Step.shadcnInit env.shadcnInitOk ∈ (scaffoldProjectRun config present env).steps
    ∧ Step.report ∈ (scaffoldProjectRun config present env).steps
    ∧ (scaffoldProjectRun config present env).report = displaySuccessMessage config := by
  refine ⟨?_, ?_, ?_, ?_, ?_, ?_⟩
  · simp [scaffoldProjectRun, hsetup]
  · simp [scaffoldProjectRun, hsetup, installPackagesSteps, hfail]
  · intro hh
    simp [scaffoldProjectRun, hsetup, hh, List.mem_append]
  · cases hi : env.shadcnInitOk <;>
      simp [scaffoldProjectRun, hsetup, hi, installShadcnComponentsSteps, List.mem_append]
  · simp [scaffoldProjectRun, hsetup, List.mem_append]
  · simp [scaffoldProjectRun, hsetup]

/-- Witness for C3: with a concrete config (husky selected) and a failing
install subprocess, the run exits zero, the warning appears in the trace,
husky setup and shadcn init still execute, and the report is printed. -/
theorem install_failure_is_non_fatal_witness :
    (scaffoldProjectRun
        { projectName := "my-app", packageManager := PackageManager.pnpm,
          reactVersion := ReactVersion.v18, initInCurrentDir := false,
          features := ⟨false, false, true, false, false, false⟩,
          components := ⟨false, false, false, false, false, false, false, false, false⟩ }
        (fun _ => false) ⟨false, true, fun _ => true⟩).exitCode = 0
    ∧ Step.installWarn (installWarnMessage PackageManager.pnpm)
        ∈ (scaffoldProjectRun
            { projectName := "my-app", packageManager := PackageManager.pnpm,
              reactVersion := ReactVersion.v18, initInCurrentDir := false,
              features := ⟨false, false, true, false, false, false⟩,
              components := ⟨false, false, false, false, false, false, false, false, false⟩ }
            (fun _ => false) ⟨false, true, fun _ => true⟩).steps := by
  have h := install_failure_is_non_fatal
    { projectName := "my-app", packageManager := PackageManager.pnpm,
      reactVersion := ReactVersion.v18, initInCurrentDir := false,
      features := ⟨false, false, true, false, false, false⟩,
      components := ⟨false, false, false, false, false, false, false, false, false⟩ }
    (fun _ => false) ⟨false, true, fun _ => true⟩ (some "my-app") rfl rfl
  exact ⟨h.1, h.2.1⟩

/-! Section: Shadcn component resolution and the add loop -/

/-- Inserting one element preserves freedom from duplicates. -/
theorem addUnique_nodup (l : List String) (s : String) (h : l.Nodup) :
    (addUnique l s).Nodup := by
  unfold addUnique
  split
  · exact h
  · rename_i hs
    simpa [List.nodup_append] using ⟨h, hs⟩

/-- Inserting many elements preserves freedom from duplicates. -/
theorem addAll_nodup (xs : List String) (l : List String) (h : l.Nodup) :
    (addAll l xs).Nodup := by
  induction xs generalizing l with
  | nil => exact h
  | cons x xs ih => exact ih (addUnique l x) (addUnique_nodup l x h)

/-- A conditional block of insertions preserves freedom from duplicates. -/
theorem addIf_nodup (b : Bool) (xs : List String) (l : List String) (h : l.Nodup) :
    (addIf b xs l).Nodup := by
  unfold addIf
  split
  · exact addAll_nodup xs l h
  · exact h

/-- C5: the resolved shadcn component set never contains duplicates, so
each required component is added by exactly one add invocation even when
several enabled flags request it; in particular, with dateTimeInput and
phoneInput both enabled (both requiring popover), popover occurs exactly
once in the resolved set. -/
theorem shadcn_components_deduplicated (c : Components) :
    (resolvedShadcnComponents c).Nodup
    ∧ (c.dateTimeInput = true → c.phoneInput = true →
        (resolvedShadcnComponents c).count "popover" = 1) := by
  constructor
  · exact addIf_nodup _ _ _ (addIf_nodup _ _ _ (addIf_nodup _ _ _ (addIf_nodup _ _ _
      (addIf_nodup _ _ _ (addIf_nodup _ _ _ (addIf_nodup _ _ _
        (addAll_nodup _ _ List.nodup_nil)))))))
  · rcases c with ⟨dt, ci, fu, dti, dri, ni, pi, phi, rgi⟩
    cases dt <;> cases ci <;> cases fu <;> cases dti <;> cases dri <;>
      cases ni <;> cases pi <;> cases phi <;> cases rgi <;> decide

/-- Witness for C5: with dateTimeInput and phoneInput enabled together,
popover is resolved exactly once. -/
theorem shadcn_components_deduplicated_witness :
    (resolvedShadcnComponents
        ⟨false, false, false, true, false, false, false, true, false⟩).count "popover" = 1 :=
  (shadcn_components_deduplicated
      ⟨false, false, false, true, false, false, false, true, false⟩).2 rfl rfl

/-- C8: the per-component add loop is failure-isolated: whatever subset of
add subprocesses fails (any shadcnAddOk oracle), an add invocation appears
in the trace for every component of the resolved set, and the failures
never abort the overall run, which still reaches the final report and exit
status zero. -/
theorem shadcn_add_loop_isolates_failures (c : Components) (env : ToolEnv)
    (hinit : env.shadcnInitOk = true) :
    (∀ comp ∈ resolvedShadcnComponents c,
        Step.shadcnAdd comp (env.shadcnAddOk comp) ∈ installShadcnComponentsSteps c env)
    ∧ ∀ (config : ProjectConfig) (present : String → Bool) (d : Option String),
        setupProjectDirectory config present = SetupResult.ok d →
        Step.report ∈ (scaffoldProjectRun config present env).steps
          ∧ (scaffoldProjectRun config present env).exitCode = 0 := by
  constructor
  · intro comp hcomp
    have hne : ¬(resolvedShadcnComponents c).length = 0 := by
      intro h0
      rw [List.length_eq_zero] at h0
      rw [h0] at hcomp
      exact absurd hcomp (List.not_mem_nil _)
    simp only [installShadcnComponentsSteps, hinit, if_true, if_neg hne, List.mem_cons]
    exact Or.inr (List.mem_map_of_mem _ hcomp)
  · intro config present d hsetup
    constructor
    · simp [scaffoldProjectRun, hsetup, List.mem_append]
    · simp [scaffoldProjectRun, hsetup]

/-- Witness for C8: concretely, with every add subprocess failing, the add
invocation for popover is still attempted, and a run with that environment
still exits zero. -/
theorem shadcn_add_loop_isolates_failures_witness :
    Step.shadcnAdd "popover" false
        ∈ installShadcnComponentsSteps
            ⟨false, false, false, true, false, false, false, true, false⟩
            ⟨true, true, fun _ => false⟩
    ∧ (scaffoldProjectRun
          { projectName := "my-app", packageManager := PackageManager.npm,
            reactVersion := ReactVersion.v18, initInCurrentDir := false,
            features := ⟨false, false, false, false, false, false⟩,
            components := ⟨false, false, false, true, false, false, false, true, false⟩ }
          (fun _ => false) ⟨true, true, fun _ => false⟩).exitCode = 0 := by
  have h := shadcn_add_loop_isolates_failures
    ⟨false, false, false, true, false, false, false, true, false⟩
    ⟨true, true, fun _ => false⟩ rfl
  exact ⟨h.1 "popover" (by decide),
    (h.2 { projectName := "my-app", packageManager := PackageManager.npm,
            reactVersion := ReactVersion.v18, initInCurrentDir := false,
            features := ⟨false, false, false, false, false, false⟩,
            components := ⟨false, false, false, true, false, false, false, true, false⟩ }
        (fun _ => false) (some "my-app") rfl).2⟩

/-! Section: The success reporter -/

/-- Two strings differ when they disagree at some character position; the
left-hand string is given as a concrete prefix followed by a rest, so the
position is looked up inside the prefix. -/
theorem append_ne_of_getElem (p rest s : String) (i : Nat) (c : Char)
    (hp : p.data[i]? = some c) (hs : s.data[i]? ≠ some c) :
    p ++ rest ≠ s := by
  intro he
  apply hs
  rw [← he, String.data_append]
  obtain ⟨hlt, -⟩ := List.getElem?_eq_some.mp hp
  rw [List.getElem?_append_left hlt]
  exact hp

/-- C9: displaySuccessMessage is pure formatting over the configuration
record (a total function, so it cannot fail or change the exit status),
and for every configuration its output contains the database-aware
setup instruction exactly when the database flag is true, the plain dev
instruction exactly when it is false, and the cd step exactly when
initInCurrentDir is false. -/
theorem success_message_contents (config : ProjectConfig) :
    (("  " ++ (pmString config.packageManager
          ++ " run setup  # This will setup database and run dev server"))
        ∈ displaySuccessMessage config ↔ config.features.database = true)
    ∧ (("  " ++ (pmString config.packageManager ++ " run dev"))
        ∈ displaySuccessMessage config ↔ config.features.database = false)
    ∧ (("  cd " ++ config.projectName) ∈ displaySuccessMessage config
        ↔ config.initInCurrentDir = false) := by
  rcases config with ⟨name, pm, rv, init, f, c⟩
  rcases f with ⟨db, dk, hu, li, nm, ba⟩
  have hero_ne : ∀ s : String, s.data[0]? ≠ some (Char.ofNat 10) →
      ("\n🎉 Project " ++ (name ++ " created successfully!\n")) ≠ s :=
    fun s hs => append_ne_of_getElem _ _ s 0 _ (by decide) hs
  have cd_ne : ∀ s : String, s.data[3]? ≠ some (Char.ofNat 100) →
      ("  cd " ++ name) ≠ s :=
    fun s hs => append_ne_of_getElem _ _ s 3 _ (by decide) hs
  have hcd0 : ("  cd " ++ name).data[0]? = some ' ' := by
    rw [String.data_append, List.getElem?_append_left (by decide)]
    decide
  cases pm <;>
  · refine ⟨?_, ?_, ?_⟩
    · constructor
      · intro hmem
        by_contra hdb
        rw [Bool.not_eq_true] at hdb
        subst hdb
        simp [displaySuccessMessage, pmString, List.mem_append, mem_ite_nil] at hmem
        rcases hmem with h | ⟨-, h⟩ <;>
          first
            | exact absurd h (Ne.symm (hero_ne _ (by decide)))
            | exact absurd h (Ne.symm (cd_ne _ (by decide)))
      · intro hdb
        subst hdb
        simp [displaySuccessMessage, pmString, List.mem_append]
    · constructor
      · intro hmem
        by_contra hdb
        rw [Bool.not_eq_false] at hdb
        subst hdb
        simp [displaySuccessMessage, pmString, List.mem_append, mem_ite_nil] at hmem
        rcases hmem with h | ⟨-, h⟩ <;>
          first
            | exact absurd h (Ne.symm (hero_ne _ (by decide)))
            | exact absurd h (Ne.symm (cd_ne _ (by decide)))
      · intro hdb
        subst hdb
        simp [displaySuccessMessage, pmString, List.mem_append]
    · constructor
      · intro hmem
        by_contra hinit
        rw [Bool.not_eq_false] at hinit
        subst hinit
        cases db <;>
          simp [displaySuccessMessage, pmString, List.mem_append] at hmem <;>
          rcases hmem with h | h | h | h | h | h | h | h | h <;>
            first
              | exact absurd h (Ne.symm (hero_ne _ (by rw [hcd0]; decide)))
              | exact absurd h (cd_ne _ (by decide))
      · intro hinit
        subst hinit
        simp [displaySuccessMessage, pmString, List.mem_append]

/-! Section: React version is dead configuration -/

/-- C10: two configurations that differ only in reactVersion produce
identical runs: reactVersion is destructured by scaffoldProject but never
passed to any scaffolding step, and createPackageJson always pins react
and react-dom to ^18.3.1 whatever the selected version. -/
theorem react_version_never_consulted (config : ProjectConfig) (rv : ReactVersion)
    (present : String → Bool) (env : ToolEnv) :
    scaffoldProjectRun { config with reactVersion := rv } present env
        = scaffoldProjectRun config present env
    ∧ (createPackageJson config.projectName config.packageManager
          config.features config.components).dependencies.filter
            (fun kv => kv.1 == "react" || kv.1 == "react-dom")
        = [("react", "^18.3.1"), ("react-dom", "^18.3.1")] := by
  constructor
  · rfl
  · rcases config with ⟨name, pm, rv0, init, f, c⟩
    rcases f with ⟨fdb, fdk, fhu, fli, fnm, fba⟩
    rcases c with ⟨dt, ci, fu, dti, dri, ni, pi, phi, rgi⟩
    cases fdb <;> cases fnm <;> cases fba <;> cases pi <;> cases phi <;> rfl

/-! Section: Database flag gives a minimal file-set diff -/

/-- The feature record with only the database flag enabled. -/
def databaseOnlyFeatures : Features :=
  { database := true, docker := false, husky := false, linting := false,
    nodemailer := false, betterAuth := false }

/-- The feature record with every flag disabled. -/
def noFeatures : Features :=
  { database := false, docker := false, husky := false, linting := false,
    nodemailer := false, betterAuth := false }

/-- The component record with every flag disabled. -/
def noComponents : Components :=
  { dataTable := false, customInputs := false, fileUpload := false,
    dateTimeInput := false, dateRangeInput := false, numberInput := false,
    priceInput := false, phoneInput := false, radioGroupInput := false }

/-- C7: with the database flag alone, the produced file set (file entries
of the materializer) equals, as a set, the file set of the all-flags-false
run plus exactly the persistence-specific files: the prisma schema, the
seed script, and the persistence-client helper lib/db.ts (the latter is
also part of the always-created manifest, so the only new files are the
schema and the seed); both inclusions are stated, so nothing else differs. -/
theorem database_only_minimal_file_diff :
    ((scaffoldEntries databaseOnlyFeatures noComponents).filter FsEntry.isFile
        ⊆ (scaffoldEntries noFeatures noComponents).filter FsEntry.isFile
            ++ [FsEntry.file "prisma/schema.prisma", FsEntry.file "prisma/seed.ts",
                FsEntry.file "lib/db.ts"])
    ∧ ((scaffoldEntries noFeatures noComponents).filter FsEntry.isFile
            ++ [FsEntry.file "prisma/schema.prisma", FsEntry.file "prisma/seed.ts",
                FsEntry.file "lib/db.ts"]
        ⊆ (scaffoldEntries databaseOnlyFeatures noComponents).filter FsEntry.isFile) := by
  constructor <;> decide

/-! Section: Flag-block independence in package.json

The content a flag contributes to package.json is measured as the entries
present with the flag on but absent (by key) with the flag off, all other
flags held fixed. -/

/-- The key/value entries of p whose key does not occur in q. -/
def addedEntries (p q : List (String × String)) : List (String × String) :=
  p.filter (fun kv => !((q.map Prod.fst).contains kv.1))

/-- Nothing is added relative to an identical list. -/
theorem addedEntries_self (p : List (String × String)) :
    addedEntries p p = [] := by
  rw [addedEntries, List.filter_eq_nil_iff]
  intro kv hkv
  have hc : (List.map Prod.fst p).contains kv.1 = true :=
    List.elem_eq_true_of_mem (List.mem_map_of_mem Prod.fst hkv)
  simp [hc]
  exact ⟨kv.2, hkv⟩

/-- The feature record with the husky flag overridden. -/
def setHusky (f : Features) (b : Bool) : Features := { f with husky := b }

/-- The feature record with the linting flag overridden. -/
def setLinting (f : Features) (b : Bool) : Features := { f with linting := b }

/-- The package.json produced for a fixed project with the given husky and
linting flags and every other flag off. -/
def pkgAt (husky linting : Bool) : PackageJson :=
  createPackageJson "my-app" PackageManager.npm
    { database := false, docker := false, husky := husky, linting := linting,
      nodemailer := false, betterAuth := false }
    noComponents

/-- C6 counterexample: the package.json content contributed by the linting
flag is NOT the same whether or not the husky flag is set.  With husky on,
toggling linting changes the lint-staged field of package.json; with husky
off it does not — so on the concrete input pkgAt the linting contribution
depends on husky, refuting the claimed block independence. -/
theorem package_flag_blocks_not_independent :
    ¬(((pkgAt true true).lintStaged = (pkgAt true false).lintStaged)
        ↔ ((pkgAt false true).lintStaged = (pkgAt false false).lintStaged)) := by
  decide

/-- C6 amended: the contributions of the linting flag and of the husky
flag to the scripts, dependencies and devDependencies of package.json are
fixed lists, independent of every other flag; the sole exception is the
lint-staged configuration entry, which is gated jointly on husky AND
linting, so toggling one of those two flags changes what the other
contributes there. -/
theorem package_flag_blocks_independent_except_lint_staged (name : String)
    (pm : PackageManager) (f : Features) (c : Components) :
    addedEntries (createPackageJson name pm (setLinting f true) c).scripts
        (createPackageJson name pm (setLinting f false) c).scripts = lintingScripts
    ∧ addedEntries (createPackageJson name pm (setLinting f true) c).dependencies
        (createPackageJson name pm (setLinting f false) c).dependencies = []
    ∧ addedEntries (createPackageJson name pm (setLinting f true) c).devDependencies
        (createPackageJson name pm (setLinting f false) c).devDependencies
        = lintingDevDependencies
    ∧ addedEntries (createPackageJson name pm (setHusky f true) c).scripts
        (createPackageJson name pm (setHusky f false) c).scripts = [("prepare", "husky")]
    ∧ addedEntries (createPackageJson name pm (setHusky f true) c).dependencies
        (createPackageJson name pm (setHusky f false) c).dependencies = []
    ∧ addedEntries (createPackageJson name pm (setHusky f true) c).devDependencies
        (createPackageJson name pm (setHusky f false) c).devDependencies
        = huskyDevDependencies
    ∧ ((createPackageJson name pm f c).lintStaged ≠ none
        ↔ (f.husky = true ∧ f.linting = true)) := by
  rcases f with ⟨fdb, fdk, fhu, fli, fnm, fba⟩
  refine ⟨?_, addedEntries_self _, ?_, ?_, addedEntries_self _, ?_, ?_⟩
  · cases pm <;> cases fdb <;> cases fhu <;> rfl
  · cases fdb <;> cases fhu <;> rfl
  · cases pm <;> cases fdb <;> cases fli <;> rfl
  · cases fdb <;> cases fli <;> rfl
  · cases fhu <;> cases fli <;> simp [createPackageJson]

/-! Section: The monolithic CLI entry (legacy single-file variant)

The legacy CLI file defines its own ProjectConfig (five component flags),
prompts the operator, checks for cancellation, builds the configuration
and then runs its own inlined scaffoldProject.  Its scaffolders write the
same paths as the modular ones except that the component set and its
conditional blocks only cover the five legacy flags. -/

/-- Component flags of the legacy configuration record. -/
structure LegacyComponents where
  dataTable : Bool
  customInputs : Bool
  fileUpload : Bool
  dateTimeInput : Bool
  radioGroupInput : Bool
deriving DecidableEq, Repr

/-- The legacy configuration record. -/
structure LegacyProjectConfig where
  projectName : String
  packageManager : PackageManager
  reactVersion : ReactVersion
  initInCurrentDir : Bool
  features : Features
  components : LegacyComponents
deriving DecidableEq, Repr

/-- The legacy createPackageJson: identical to the modular one except that
it takes no component flags (no per-component dependencies). -/
def legacyCreatePackageJson (projectName : String) (pm : PackageManager)
    (features : Features) : PackageJson :=
  let scripts :=
    [("dev", "next dev"), ("build", "next build"), ("start", "next start")]
      ++ (if features.linting then lintingScripts else [])
      ++ (if features.database then databaseScripts pm else [])
      ++ (if features.husky then [("prepare", "husky")] else [])
  let dependencies :=
    baseDependencies
      ++ (if features.betterAuth then [("better-auth", "latest")] else [])
      ++ (if features.database then [("@prisma/client", "latest")] else [])
      ++ (if features.nodemailer then
            [("nodemailer", "latest"), ("@types/nodemailer", "latest")] else [])
  let devDependencies :=
    (if features.database then
        [("prisma", "latest"), ("tsx", "latest"), ("concurrently", "latest")] else [])
      ++ (if features.linting then lintingDevDependencies else [])
      ++ (if features.husky then huskyDevDependencies else [])
  { name := projectName
    version := "0.1.0"
    isPrivate := true
    scripts := scripts
    dependencies := dependencies
    devDependencies := devDependencies
    lintStaged := if features.husky && features.linting then some lintStagedConfig else none
    prismaSeed := if features.database then some "tsx prisma/seed.ts" else none }

/-- Legacy createFolderStructure: same base folders; the shared-inputs
folder is gated on the four legacy input flags. -/
def legacyCreateFolderStructureEntries (features : Features)
    (components : LegacyComponents) : List FsEntry :=
  (baseFolders.map FsEntry.dir)
    ++ (if components.customInputs || components.fileUpload || components.dateTimeInput ||
          components.radioGroupInput then
          [FsEntry.dir "components/shared/inputs"] else [])
    ++ (if components.dataTable then dataTableFolders.map FsEntry.dir else [])
    ++ (if features.database then [FsEntry.dir "prisma"] else [])

/-- Legacy createSharedInputs: the same per-flag input files. -/
def legacyCreateSharedInputsEntries (components : LegacyComponents) : List FsEntry :=
  (if components.customInputs then sharedCustomInputFiles else [])
    ++ (if components.fileUpload then
          [FsEntry.file "components/shared/inputs/FileUpload.tsx"] else [])
    ++ (if components.dateTimeInput then
          [FsEntry.file "components/shared/inputs/DateTimeInput.tsx"] else [])
    ++ (if components.radioGroupInput then
          [FsEntry.file "components/shared/inputs/RadioGroupInput.tsx"] else [])

/-- Legacy createSharedComponents: inputs when any of the four input flags
is set, then the data table. -/
def legacyCreateSharedComponentsEntries (components : LegacyComponents) : List FsEntry :=
  (if components.customInputs || components.fileUpload || components.dateTimeInput ||
      components.radioGroupInput then legacyCreateSharedInputsEntries components else [])
    ++ (if components.dataTable then createSharedDataTableEntries else [])

/-- The entry list of the legacy inlined scaffoldProject, in call order
(the written paths coincide with the modular scaffolders). -/
def legacyScaffoldEntries (features : Features) (components : LegacyComponents) :
    List FsEntry :=
  [FsEntry.file "package.json"]
    ++ legacyCreateFolderStructureEntries features components
    ++ createConfigFilesEntries
    ++ createCoreFilesEntries
    ++ (if components.customInputs then createCustomComponentsEntries else [])
    ++ legacyCreateSharedComponentsEntries components
    ++ createLibFilesEntries features
    ++ createActionsExampleEntries
    ++ createStoresEntries
    ++ createHooksEntries
    ++ createAppFilesEntries
    ++ createConstantsEntries
    ++ createTypesEntries
    ++ createSchemasEntries
    ++ (if features.docker then createDockerFilesEntries else [])
    ++ (if features.database then createPrismaFilesEntries else [])

/-- The legacy resolved shadcn component set (no dateRange or phone flags). -/
def legacyResolvedShadcnComponents (c : LegacyComponents) : List String :=
  addIf c.radioGroupInput ["radio-group"]
    (addIf c.dateTimeInput ["popover", "calendar"]
      (addIf c.fileUpload ["tooltip"]
        (addIf c.dataTable ["table", "checkbox"]
          (addIf c.customInputs ["select", "textarea"]
            (addAll [] ["form", "input", "label", "button"])))))

/-- The legacy installShadcnComponents step trace. -/
def legacyInstallShadcnComponentsSteps (c : LegacyComponents) (env : ToolEnv) :
    List Step :=
  if env.shadcnInitOk then
    let componentsArray := legacyResolvedShadcnComponents c
    Step.shadcnInit true ::
      (if componentsArray.length = 0 then []
       else componentsArray.map fun comp => Step.shadcnAdd comp (env.shadcnAddOk comp))
  else [Step.shadcnInit false, Step.shadcnWarn]

/-- The success lines printed inline at the end of the legacy
scaffoldProject (same text as the modular displaySuccessMessage). -/
def legacySuccessLines (config : LegacyProjectConfig) : List String :=
  ["\n🎉 Project " ++ (config.projectName ++ " created successfully!\n"),
   "📋 Next steps:"]
    ++ (if config.initInCurrentDir = false then ["  cd " ++ config.projectName] else [])
    ++ ["  cp .env.example .env.local",
        "  # Configure your environment variables"]
    ++ (if config.features.database then
          ["  " ++ pmString config.packageManager
            ++ " run setup  # This will setup database and run dev server"]
        else ["  " ++ pmString config.packageManager ++ " run dev"])
    ++ ["\n🔧 Don\x27t forget to:",
        "  • Configure your database connection",
        "  • Set up your authentication providers",
        "  • Configure SMTP settings for email"]

/-- The legacy inlined scaffoldProject as a run outcome: destination
validation (with process.exit aborting the run), entries, package.json,
install (failure caught inline), conditional husky setup, shadcn steps,
and the inline success report. -/
def legacyScaffoldRun (config : LegacyProjectConfig) (present : String → Bool)
    (env : ToolEnv) : RunOutcome :=
  if config.initInCurrentDir then
    if (conflictingFiles.filter present).length > 0 then abortedOutcome 1
    else
      { exitCode := 0
        rootDir := none
        entries := legacyScaffoldEntries config.features config.components
        pkg := some (legacyCreatePackageJson config.projectName
                      config.packageManager config.features)
        steps := installPackagesSteps config.packageManager env
                  ++ (if config.features.husky then [Step.huskySetup] else [])
                  ++ legacyInstallShadcnComponentsSteps config.components env
        report := legacySuccessLines config }
  else
    if present config.projectName then abortedOutcome 1
    else
      { exitCode := 0
        rootDir := some config.projectName
        entries := legacyScaffoldEntries config.features config.components
        pkg := some (legacyCreatePackageJson config.projectName
                      config.packageManager config.features)
        steps := installPackagesSteps config.packageManager env
                  ++ (if config.features.husky then [Step.huskySetup] else [])
                  ++ legacyInstallShadcnComponentsSteps config.components env
        report := legacySuccessLines config }

/-- A JavaScript value held in response.projectName: the literal false the
cancellation check compares against, undefined (prompt skipped), or a
string answer. -/
inductive JsName
  | cancelFalse
  | undef
  | str (s : String)
deriving DecidableEq, Repr

/-- The prompt answers record returned by prompts(...) in the legacy CLI. -/
structure PromptResponse where
  projectName : JsName
  packageManager : PackageManager
  reactVersion : ReactVersion
  features : List String
  components : List String
deriving DecidableEq, Repr

/-- JS truthiness of the projectName answer (false and undefined are
falsy, a string is truthy unless empty). -/
def jsNameTruthy : JsName → Bool
  | JsName.str s => !(s == "")
  | _ => false

/-- JS strict equality of the projectName answer against a string. -/
def jsNameIs (v : JsName) (t : String) : Bool :=
  match v with
  | JsName.str s => s == t
  | _ => false

/-- The string payload of a truthy projectName answer. -/
def jsNameStr : JsName → String
  | JsName.str s => s
  | _ => ""

/-- JS truthiness of the optional CLI argument. -/
def targetDirTruthy : Option String → Bool
  | some t => !(t == "")
  | none => false

/-- The legacy createProject: if the prompt sequence was cancelled at the
project-name prompt (response.projectName === false), print the
cancellation message and exit 1 before anything is created; otherwise
build the configuration from the CLI argument, the answers and the
current-directory facts, and run the inlined scaffoldProject. -/
def legacyCreateProjectRun (targetDir : Option String) (currentDirName : String)
    (isCurrentDirEmpty : Bool) (resp : PromptResponse)
    (present : String → Bool) (env : ToolEnv) : RunOutcome :=
  if resp.projectName = JsName.cancelFalse then
    { exitCode := 1, rootDir := none, entries := [], pkg := none, steps := [],
      report := ["❌ Project creation cancelled"] }
  else
    let projectName :=
      if targetDirTruthy targetDir then targetDir.getD ""
      else if jsNameTruthy resp.projectName then jsNameStr resp.projectName
      else currentDirName
    let initInCurrentDir :=
      !(targetDirTruthy targetDir)
        && (!(jsNameTruthy resp.projectName) || jsNameIs resp.projectName "."
            || jsNameIs resp.projectName "./"
            || (isCurrentDirEmpty && jsNameIs resp.projectName currentDirName))
    let config : LegacyProjectConfig :=
      { projectName := if initInCurrentDir then currentDirName else projectName
        packageManager := resp.packageManager
        reactVersion := resp.reactVersion
        initInCurrentDir := initInCurrentDir
        features :=
          { database := resp.features.contains "database"
            docker := resp.features.contains "docker"
            husky := resp.features.contains "husky"
            linting := resp.features.contains "linting"
            nodemailer := resp.features.contains "nodemailer"
            betterAuth := resp.features.contains "betterAuth" }
        components :=
          { dataTable := resp.components.contains "dataTable"
            customInputs := resp.components.contains "customInputs"
            fileUpload := resp.components.contains "fileUpload"
            dateTimeInput := resp.components.contains "dateTimeInput"
            radioGroupInput := resp.components.contains "radioGroupInput" } }
    legacyScaffoldRun config present env

/-- C4: if the operator cancels the interactive prompt sequence at the
project-name prompt, the run terminates with exit status 1, prints the
visible cancellation message, and creates zero files: no scaffolding step
runs, whatever the CLI argument, directory state and subprocess outcomes. -/
theorem prompt_cancellation_aborts (targetDir : Option String)
    (currentDirName : String) (isCurrentDirEmpty : Bool) (resp : PromptResponse)
    (present : String → Bool) (env : ToolEnv)
    (hcancel : resp.projectName = JsName.cancelFalse) :
    legacyCreateProjectRun targetDir currentDirName isCurrentDirEmpty resp present env
      = { exitCode := 1, rootDir := none, entries := [], pkg := none, steps := [],
          report := ["❌ Project creation cancelled"] } := by
  simp [legacyCreateProjectRun, hcancel]

/-- Witness for C4: a concrete cancelled run exits 1 with the cancellation
message and no file entries, no package.json and no subprocess steps. -/
theorem prompt_cancellation_aborts_witness :
    legacyCreateProjectRun none "work" true
        { projectName := JsName.cancelFalse, packageManager := PackageManager.npm,
          reactVersion := ReactVersion.v18, features := [], components := [] }
        (fun _ => false) ⟨true, true, fun _ => true⟩
      = { exitCode := 1, rootDir := none, entries := [], pkg := none, steps := [],
          report := ["❌ Project creation cancelled"] } :=
  prompt_cancellation_aborts none "work" true
    { projectName := JsName.cancelFalse, packageManager := PackageManager.npm,
      reactVersion := ReactVersion.v18, features := [], components := [] }
    (fun _ => false) ⟨true, true, fun _ => true⟩ rfl

end WmCli
